import Mathlib

/-!
Shallow embedding of the `system_design` module of `src/main.rs`
(Unwrap-Philosophy): the `Service` request handlers for the three
failure-handling policies and the `simulate_production_load` runner,
together with proofs of the behavioural properties of the simulation.

Conventions of the embedding:
* a Rust `Option<String>` payload is a Lean `Option String`;
* `handle_request_unsafe` calls `input.unwrap()`, which panics on `None`;
  the panic (observed by the runner through `std::panic::catch_unwind`)
  is modelled by returning `none`;
* `handle_request_safe` returns `Result<String, String>`, modelled by
  `Except String String`;
* `handle_request_resilient` prints a diagnostic to stderr when the
  payload is absent; the stderr channel is modelled as the second
  component of the result, a list of emitted lines;
* the runner's `for` loop with `break` is modelled by the structural
  recursion `simLoop`, which returns its state immediately on the break;
* the `f64` availability percentage is modelled in `ℚ`.
-/

namespace UnwrapPhilosophy

/-- Rust `Service` (main.rs line 76): holds the descriptive nominal
failure rate `λ`; no handler reads it. -/
structure Service where
  failure_rate : ℚ

/-- `Service::new` (main.rs line 81). -/
def Service.new (rate : ℚ) : Service :=
  ⟨rate⟩

/-- `Service::handle_request_unsafe` (main.rs lines 87-90): design A,
`input.unwrap()` then `format!("Processed: {}", data)`. The unwrap panic
on an absent payload is modelled by `none`. -/
def Service.handle_request_unsafe (_s : Service) (input : Option String) : Option String :=
  match input with
  | some data => some ("Processed: " ++ data)
  | none => none

/-- `Service::handle_request_safe` (main.rs lines 94-97): design B,
`input.ok_or("No input provided")?` then the same formatting; returns a
`Result`, never panics. -/
def Service.handle_request_safe (_s : Service) (input : Option String) : Except String String :=
  match input with
  | some data => Except.ok ("Processed: " ++ data)
  | none => Except.error "No input provided"

/-- `Service::handle_request_resilient` (main.rs lines 101-110): design C,
total match on the input; on `None` it prints a diagnostic to stderr and
returns the literal fallback. The result is the returned payload paired
with the lines emitted on the stderr channel. -/
def Service.handle_request_resilient (_s : Service) (input : Option String) :
    String × List String :=
  match input with
  | some data => ("Processed: " ++ data, [])
  | none => ("Fallback response", ["⚠ Request failed, using fallback"])

/-- Substring test on character lists: does `pat` occur as a contiguous
infix? Models Rust `str::contains` with a string pattern. -/
def containsSub (pat : List Char) : List Char → Bool
  | [] => List.isPrefixOf pat []
  | c :: rest => List.isPrefixOf pat (c :: rest) || containsSub pat rest

/-- Rust `response.contains(pat)` (main.rs line 164). -/
def stringContains (s pat : String) : Bool :=
  containsSub pat.toList s.toList

/-- The mutable loop state of `simulate_production_load` (main.rs lines
130-174): the two counters, the abort position printed when the unsafe
policy crashes (1-indexed, `i + 1`), and the indices of the requests that
were actually dispatched to a handler, in order. -/
structure SimState where
  successful : Nat
  failed : Nat
  abortIndex : Option Nat
  dispatched : List Nat

/-- The final report assembled after the loop (main.rs lines 176-179):
counters, abort position, dispatched indices, and the availability
percentage `(successful as f64 / requests.len() as f64) * 100.0`. -/
structure SimReport where
  successful : Nat
  failed : Nat
  abortIndex : Option Nat
  dispatched : List Nat
  availability : ℚ

/-- The `for (i, req) in requests.iter().enumerate()` loop of
`simulate_production_load` (main.rs lines 134-174). `total` is
`requests.len()`; `i` is the index of the head request. The unsafe arm
runs the handler under `catch_unwind`: on a panic (`none`) it sets
`failed = requests.len() - i` and breaks, modelled by returning the
state at once. The catch-all `_ => ` arm (main.rs line 172) dispatches
nothing and leaves the state unchanged. -/
def simLoop (service : Service) (design : String) (total : Nat) :
    Nat → List (Option String) → SimState → SimState
  | _, [], st => st
  | i, req :: rest, st =>
    if design = "unsafe" then
      match Service.handle_request_unsafe service req with
      | none =>
        { st with
          failed := total - i
          abortIndex := some (i + 1)
          dispatched := st.dispatched ++ [i] }
      | some _ =>
        simLoop service design total (i + 1) rest
          { st with
            successful := st.successful + 1
            dispatched := st.dispatched ++ [i] }
    else if design = "safe" then
      match Service.handle_request_safe service req with
      | Except.ok _ =>
        simLoop service design total (i + 1) rest
          { st with
            successful := st.successful + 1
            dispatched := st.dispatched ++ [i] }
      | Except.error _ =>
        simLoop service design total (i + 1) rest
          { st with
            failed := st.failed + 1
            dispatched := st.dispatched ++ [i] }
    else if design = "resilient" then
      if stringContains (Service.handle_request_resilient service req).1 "Fallback" then
        simLoop service design total (i + 1) rest
          { st with
            failed := st.failed + 1
            dispatched := st.dispatched ++ [i] }
      else
        simLoop service design total (i + 1) rest
          { st with
            successful := st.successful + 1
            dispatched := st.dispatched ++ [i] }
    else
      simLoop service design total (i + 1) rest st

/-- `simulate_production_load` generalised over the request list: builds
the service with `Service::new(0.01)` (main.rs line 117), runs the loop
from fresh zero counters, and assembles the report (main.rs lines
176-179). The availability denominator is `requests.len()`, the length
of the original list. -/
def simulate (design : String) (requests : List (Option String)) : SimReport :=
  let service := Service.new (1 / 100)
  let st := simLoop service design requests.length 0 requests ⟨0, 0, none, []⟩
  { successful := st.successful
    failed := st.failed
    abortIndex := st.abortIndex
    dispatched := st.dispatched
    availability := (st.successful : ℚ) / (requests.length : ℚ) * 100 }

/-- The fixed demonstration request sequence (main.rs lines 120-128):
seven requests with absent payloads at positions 3 and 6 (1-indexed). -/
def referenceRequests : List (Option String) :=
  [some "req1", some "req2", none, some "req3", some "req4", none, some "req5"]

/-- `simulate_production_load` itself (main.rs lines 115-180), which runs
the fixed demonstration sequence. -/
def simulate_production_load (design : String) : SimReport :=
  simulate design referenceRequests


theorem simLoop_safe_eq (service : Service) (total : Nat) :
    ∀ (rest : List (Option String)) (i : Nat) (st : SimState),
    simLoop service "safe" total i rest st =
      ⟨st.successful + rest.countP (fun r => r.isSome),
       st.failed + rest.countP (fun r => r.isNone),
       st.abortIndex,
       st.dispatched ++ List.range' i rest.length⟩ := by
  intro rest
  induction rest with
  | nil => intro i st; simp [simLoop]
  | cons req rest ih =>
    intro i st
    cases req with
    | none =>
      simp [simLoop, Service.handle_request_safe, ih, List.range'_succ,
        List.countP_cons, List.append_assoc]
      omega
    | some d =>
      simp [simLoop, Service.handle_request_safe, ih, List.range'_succ,
        List.countP_cons, List.append_assoc]
      omega

/-- The per-request classification applied by the resilient arm of the
runner (main.rs line 164): the request is counted failed when the
returned response contains the substring of the fallback marker. -/
def resilientFails (service : Service) (req : Option String) : Bool :=
  stringContains (Service.handle_request_resilient service req).1 "Fallback"

theorem simLoop_resilient_eq (service : Service) (total : Nat) :
    ∀ (rest : List (Option String)) (i : Nat) (st : SimState),
    simLoop service "resilient" total i rest st =
      ⟨st.successful + rest.countP (fun r => ! resilientFails service r),
       st.failed + rest.countP (fun r => resilientFails service r),
       st.abortIndex,
       st.dispatched ++ List.range' i rest.length⟩ := by
  intro rest
  induction rest with
  | nil => intro i st; simp [simLoop]
  | cons req rest ih =>
    intro i st
    by_cases h : resilientFails service req = true
    · simp [simLoop, resilientFails, stringContains] at h ⊢
      simp [h, ih, resilientFails, stringContains, List.range'_succ,
        List.countP_cons, List.append_assoc]
      omega
    · simp [simLoop, resilientFails, stringContains] at h ⊢
      simp [h, ih, resilientFails, stringContains, List.range'_succ,
        List.countP_cons, List.append_assoc]
      omega

theorem simLoop_unsafe_clean (service : Service) (total : Nat) :
    ∀ (rest : List (Option String)) (i : Nat) (st : SimState),
    (∀ r ∈ rest, r ≠ none) →
    simLoop service "unsafe" total i rest st =
      ⟨st.successful + rest.length,
       st.failed,
       st.abortIndex,
       st.dispatched ++ List.range' i rest.length⟩ := by
  intro rest
  induction rest with
  | nil => intro i st _; simp [simLoop]
  | cons req rest ih =>
    intro i st h
    cases req with
    | none => exact absurd rfl (h none (List.mem_cons_self _ _))
    | some d =>
      have h' : ∀ r ∈ rest, r ≠ none := fun r hr => h r (List.mem_cons_of_mem _ hr)
      simp [simLoop, Service.handle_request_unsafe, ih _ _ h',
        List.range'_succ, List.append_assoc]
      omega

theorem simLoop_unsafe_abort (service : Service) (total : Nat) :
    ∀ (pre suf : List (Option String)) (i : Nat) (st : SimState),
    (∀ r ∈ pre, r ≠ none) →
    simLoop service "unsafe" total i (pre ++ none :: suf) st =
      ⟨st.successful + pre.length,
       total - (i + pre.length),
       some (i + pre.length + 1),
       st.dispatched ++ List.range' i (pre.length + 1)⟩ := by
  intro pre
  induction pre with
  | nil =>
    intro suf i st _
    simp [simLoop, Service.handle_request_unsafe, List.range'_succ, List.range']
  | cons req pre ih =>
    intro suf i st h
    cases req with
    | none => exact absurd rfl (h none (List.mem_cons_self _ _))
    | some d =>
      have h' : ∀ r ∈ pre, r ≠ none := fun r hr => h r (List.mem_cons_of_mem _ hr)
      simp [simLoop, Service.handle_request_unsafe, ih _ _ _ h',
        List.range'_succ, List.append_assoc]
      omega

theorem simLoop_other_eq (service : Service) (design : String) (total : Nat)
    (h1 : design ≠ "unsafe") (h2 : design ≠ "safe") (h3 : design ≠ "resilient") :
    ∀ (rest : List (Option String)) (i : Nat) (st : SimState),
    simLoop service design total i rest st = st := by
  intro rest
  induction rest with
  | nil => intro i st; simp [simLoop]
  | cons req rest ih =>
    intro i st
    simp [simLoop, h1, h2, h3, ih]

/-- Every list of optional payloads either has no absent entry, or splits
as an all-present prefix followed by the first absent entry. -/
theorem first_none_split (l : List (Option String)) :
    (∀ r ∈ l, r ≠ none) ∨
    ∃ pre suf, l = pre ++ none :: suf ∧ ∀ r ∈ pre, r ≠ none := by
  induction l with
  | nil => exact Or.inl (by simp)
  | cons req rest ih =>
    cases req with
    | none => exact Or.inr ⟨[], rest, by simp⟩
    | some d =>
      rcases ih with h | ⟨pre, suf, hsplit, hpre⟩
      · refine Or.inl ?_
        intro r hr
        rcases List.mem_cons.1 hr with h1 | h1
        · simp [h1]
        · exact h r h1
      · refine Or.inr ⟨some d :: pre, suf, by simp [hsplit], ?_⟩
        intro r hr
        rcases List.mem_cons.1 hr with h1 | h1
        · simp [h1]
        · exact hpre r h1

theorem simulate_availability_eq (design : String) (reqs : List (Option String)) :
    (simulate design reqs).availability =
      ((simulate design reqs).successful : ℚ) / (reqs.length : ℚ) * 100 :=
  rfl

theorem countP_isSome_add_isNone (l : List (Option String)) :
    l.countP (fun r => r.isSome) + l.countP (fun r => r.isNone) = l.length := by
  induction l with
  | nil => simp
  | cons r l ih => cases r <;> simp [List.countP_cons, ← ih] <;> omega

theorem countP_not_add_self (p : Option String → Bool) (l : List (Option String)) :
    l.countP (fun r => ! p r) + l.countP p = l.length := by
  induction l with
  | nil => simp
  | cons r l ih => by_cases h : p r <;> simp [List.countP_cons, h, ← ih] <;> omega

/-- C1: for every finite request sequence and each of the three policies,
the reported counters satisfy `successful + failed = length` of the
original sequence; no request is ever silently unaccounted for, the
unsafe abort included (the break assigns `failed = requests.len() - i`,
covering the faulting request and everything after it). -/
theorem C1_counters_account_for_every_request (reqs : List (Option String)) :
    ((simulate "unsafe" reqs).successful + (simulate "unsafe" reqs).failed = reqs.length) ∧
    ((simulate "safe" reqs).successful + (simulate "safe" reqs).failed = reqs.length) ∧
    ((simulate "resilient" reqs).successful + (simulate "resilient" reqs).failed = reqs.length) := by
  refine ⟨?_, ?_, ?_⟩
  · rcases first_none_split reqs with h | ⟨pre, suf, rfl, hpre⟩
    · simp [simulate, simLoop_unsafe_clean _ _ _ _ _ h]
    · simp [simulate, simLoop_unsafe_abort _ _ _ _ _ _ hpre]
  · simp [simulate, simLoop_safe_eq]
    exact countP_isSome_add_isNone reqs
  · simp [simulate, simLoop_resilient_eq]
    exact countP_not_add_self _ reqs

/-- C2: the unsafe policy on the reference 7-element sequence stops at the
first absent payload (1-indexed position 3) and reports `successful = 2`,
`failed = 5`, abort position 3. -/
theorem C2_reference_run_unsafe_policy :
    (simulate_production_load "unsafe").successful = 2 ∧
    (simulate_production_load "unsafe").failed = 5 ∧
    (simulate_production_load "unsafe").abortIndex = some 3 := by
  refine ⟨by decide, by decide, by decide⟩
/-- C3: the safe policy on the reference sequence reports `successful = 5`,
`failed = 2`; the resilient policy reports the same counts; both report
availability `500/7 ≈ 71.4` percent (the exact value lies in
`[71.4, 71.5)`). -/
theorem C3_reference_run_safe_and_resilient :
    (simulate_production_load "safe").successful = 5 ∧
    (simulate_production_load "safe").failed = 2 ∧
    (simulate_production_load "resilient").successful = 5 ∧
    (simulate_production_load "resilient").failed = 2 ∧
    (simulate_production_load "safe").availability = 500 / 7 ∧
    (simulate_production_load "resilient").availability =
      (simulate_production_load "safe").availability ∧
    (714 / 10 : ℚ) ≤ 500 / 7 ∧ (500 / 7 : ℚ) < 715 / 10 := by
  have hs : (simulate_production_load "safe").successful = 5 := by decide
  have hr : (simulate_production_load "resilient").successful = 5 := by decide
  have hlen : referenceRequests.length = 7 := by decide
  have havs : (simulate_production_load "safe").availability = 500 / 7 := by
    show (simulate "safe" referenceRequests).availability = 500 / 7
    rw [simulate_availability_eq]
    rw [show (simulate "safe" referenceRequests).successful = 5 from hs, hlen]
    norm_num
  have havr : (simulate_production_load "resilient").availability = 500 / 7 := by
    show (simulate "resilient" referenceRequests).availability = 500 / 7
    rw [simulate_availability_eq]
    rw [show (simulate "resilient" referenceRequests).successful = 5 from hr, hlen]
    norm_num
  refine ⟨hs, by decide, hr, by decide, havs, by rw [havr, havs], by norm_num, by norm_num⟩

/-- C4: once the unsafe policy hits the first absent payload (after an
all-present prefix `pre`), the panic is caught at the per-request
dispatch boundary: the abort position is recorded, only the requests up
to and including the faulting one are ever dispatched, the prefix is
counted successful, and the faulting request together with everything
after it is counted failed; the runner itself returns a report. -/
theorem C4_unsafe_abort_bounded_at_dispatch (pre suf : List (Option String))
    (h : ∀ r ∈ pre, r ≠ none) :
    (simulate "unsafe" (pre ++ none :: suf)).abortIndex = some (pre.length + 1) ∧
    (simulate "unsafe" (pre ++ none :: suf)).dispatched = List.range (pre.length + 1) ∧
    (simulate "unsafe" (pre ++ none :: suf)).successful = pre.length ∧
    (simulate "unsafe" (pre ++ none :: suf)).failed = suf.length + 1 := by
  refine ⟨?_, ?_, ?_, ?_⟩ <;>
    simp [simulate, simLoop_unsafe_abort _ _ _ _ _ _ h, List.range_eq_range']

theorem C4_witness :
    (∀ r ∈ ([some "req1", some "req2"] : List (Option String)), r ≠ none) ∧
    ((simulate "unsafe" ([some "req1", some "req2"] ++
        none :: [some "req3", some "req4", none, some "req5"])).abortIndex = some 3 ∧
     (simulate "unsafe" ([some "req1", some "req2"] ++
        none :: [some "req3", some "req4", none, some "req5"])).dispatched = List.range 3 ∧
     (simulate "unsafe" ([some "req1", some "req2"] ++
        none :: [some "req3", some "req4", none, some "req5"])).successful = 2 ∧
     (simulate "unsafe" ([some "req1", some "req2"] ++
        none :: [some "req3", some "req4", none, some "req5"])).failed = 5) :=
  ⟨by decide,
   C4_unsafe_abort_bounded_at_dispatch [some "req1", some "req2"]
     [some "req3", some "req4", none, some "req5"] (by decide)⟩
/-- C5 as stated is false: under the resilient policy a present payload
whose processed response contains the substring of the fallback marker is
counted failed. Concretely, the single present request `Some("Fallback")`
yields `successful = 0, failed = 1`. -/
theorem C5_counterexample_present_payload_counted_failed :
    (simulate "resilient" [some "Fallback"]).successful = 0 ∧
    (simulate "resilient" [some "Fallback"]).failed = 1 := by
  refine ⟨by decide, by decide⟩

/-- C5 (amended): for every policy a present-but-empty payload is treated
as present and counted successful; for the unsafe and safe policies
absence is the only failure trigger on a single request, while the
resilient policy counts a request as failed exactly when the response
returned for it contains the fallback marker substring — which holds in
particular for every absent payload. -/
theorem C5_empty_payload_present_and_failure_triggers :
    ((simulate "unsafe" [some ""]).successful = 1 ∧
     (simulate "unsafe" [some ""]).failed = 0) ∧
    ((simulate "safe" [some ""]).successful = 1 ∧
     (simulate "safe" [some ""]).failed = 0) ∧
    ((simulate "resilient" [some ""]).successful = 1 ∧
     (simulate "resilient" [some ""]).failed = 0) ∧
    (∀ req : Option String,
      ((simulate "unsafe" [req]).failed ≠ 0 ↔ req = none) ∧
      ((simulate "safe" [req]).failed ≠ 0 ↔ req = none) ∧
      ((simulate "resilient" [req]).failed ≠ 0 ↔
        resilientFails (Service.new (1 / 100)) req = true)) ∧
    resilientFails (Service.new (1 / 100)) none = true := by
  refine ⟨⟨by decide, by decide⟩, ⟨by decide, by decide⟩, ⟨by decide, by decide⟩,
    ?_, by decide⟩
  intro req
  refine ⟨?_, ?_, ?_⟩
  · cases req with
    | none => simp [simulate, simLoop, Service.handle_request_unsafe]
    | some d => simp [simulate, simLoop, Service.handle_request_unsafe]
  · cases req with
    | none => simp [simulate, simLoop_safe_eq]
    | some d => simp [simulate, simLoop_safe_eq]
  · by_cases h : resilientFails (Service.new (1 / 100)) req = true
    · simp [simulate, simLoop_resilient_eq, List.countP_cons, h]
    · simp [simulate, simLoop_resilient_eq, List.countP_cons, h]
/-- C6: `handle_request_safe` returns the typed error value exactly when
the payload is absent and `Ok("Processed: " ++ payload)` when it is
present; it is a total function (it never panics), so a safe-policy run
dispatches every request of any sequence, never aborts, and accounts for
the whole sequence in its counters. -/
theorem C6_safe_handler_is_total_and_exact (s : Service) (d : String)
    (reqs : List (Option String)) :
    Service.handle_request_safe s none = Except.error "No input provided" ∧
    Service.handle_request_safe s (some d) = Except.ok ("Processed: " ++ d) ∧
    (simulate "safe" reqs).abortIndex = none ∧
    (simulate "safe" reqs).dispatched = List.range reqs.length ∧
    (simulate "safe" reqs).successful + (simulate "safe" reqs).failed = reqs.length := by
  refine ⟨rfl, rfl, ?_, ?_, ?_⟩
  · simp [simulate, simLoop_safe_eq]
  · simp [simulate, simLoop_safe_eq, List.range_eq_range']
  · simp [simulate, simLoop_safe_eq]
    exact countP_isSome_add_isNone reqs

/-- C7: `handle_request_resilient` is total: with an absent payload it
returns the literal fallback payload and emits the diagnostic notice on
the stderr channel; with a present payload it returns the processed
payload and emits nothing. -/
theorem C7_resilient_handler_is_total (s : Service) (d : String) :
    Service.handle_request_resilient s none =
      ("Fallback response", ["⚠ Request failed, using fallback"]) ∧
    Service.handle_request_resilient s (some d) = ("Processed: " ++ d, []) :=
  ⟨rfl, rfl⟩
/-- C8: the availability percentage reported for any policy and sequence
is `successful / original-length * 100`; for an unsafe run that aborts
after an all-present prefix `pre`, only `pre.length + 1` requests were
ever dispatched, yet the denominator is still the original sequence
length. -/
theorem C8_availability_uses_original_length (design : String)
    (reqs pre suf : List (Option String)) (h : ∀ r ∈ pre, r ≠ none) :
    (simulate design reqs).availability =
      ((simulate design reqs).successful : ℚ) / (reqs.length : ℚ) * 100 ∧
    (simulate "unsafe" (pre ++ none :: suf)).availability =
      (pre.length : ℚ) / ((pre ++ none :: suf).length : ℚ) * 100 ∧
    (simulate "unsafe" (pre ++ none :: suf)).dispatched.length = pre.length + 1 := by
  have hsucc : (simulate "unsafe" (pre ++ none :: suf)).successful = pre.length := by
    simp [simulate, simLoop_unsafe_abort _ _ _ _ _ _ h]
  refine ⟨rfl, ?_, ?_⟩
  · rw [simulate_availability_eq, hsucc]
  · simp [simulate, simLoop_unsafe_abort _ _ _ _ _ _ h]

theorem C8_witness :
    (∀ r ∈ ([some "req1", some "req2"] : List (Option String)), r ≠ none) ∧
    ((simulate "safe" referenceRequests).availability =
       ((simulate "safe" referenceRequests).successful : ℚ) /
         (referenceRequests.length : ℚ) * 100 ∧
     (simulate "unsafe" ([some "req1", some "req2"] ++
        none :: [some "req3", some "req4", none, some "req5"])).availability =
       ((2 : ℕ) : ℚ) / ((7 : ℕ) : ℚ) * 100 ∧
     (simulate "unsafe" ([some "req1", some "req2"] ++
        none :: [some "req3", some "req4", none, some "req5"])).dispatched.length = 3) :=
  ⟨by decide,
   C8_availability_uses_original_length "safe" referenceRequests
     [some "req1", some "req2"] [some "req3", some "req4", none, some "req5"]
     (by decide)⟩

/-- C9 as stated is false for the resilient policy: the non-empty
all-present sequence `[Some("Fallback"), Some("req9")]` yields
`successful = 1 ≠ 2` because the first response contains the fallback
marker substring. -/
theorem C9_counterexample_resilient_all_present :
    (∀ r ∈ ([some "Fallback", some "req9"] : List (Option String)), r ≠ none) ∧
    ([some "Fallback", some "req9"] : List (Option String)) ≠ [] ∧
    ¬ ((simulate "resilient" [some "Fallback", some "req9"]).successful =
        ([some "Fallback", some "req9"] : List (Option String)).length ∧
       (simulate "resilient" [some "Fallback", some "req9"]).failed = 0) := by
  refine ⟨by decide, by decide, by decide⟩

/-- C9 (amended): on any non-empty all-present sequence the unsafe and
safe policies report `successful = length`, `failed = 0`, availability
`= 100`; the resilient policy reports the same provided no request is
classified as a fallback by the substring check (which holds for the
sequences whose processed responses avoid the fallback marker). -/
theorem C9_all_present_full_success (reqs : List (Option String))
    (hne : reqs ≠ []) (hall : ∀ r ∈ reqs, r ≠ none) :
    ((simulate "unsafe" reqs).successful = reqs.length ∧
     (simulate "unsafe" reqs).failed = 0 ∧
     (simulate "unsafe" reqs).availability = 100) ∧
    ((simulate "safe" reqs).successful = reqs.length ∧
     (simulate "safe" reqs).failed = 0 ∧
     (simulate "safe" reqs).availability = 100) ∧
    ((∀ r ∈ reqs, resilientFails (Service.new (1 / 100)) r = false) →
      (simulate "resilient" reqs).successful = reqs.length ∧
      (simulate "resilient" reqs).failed = 0 ∧
      (simulate "resilient" reqs).availability = 100) := by
  have h0 : reqs.length ≠ 0 := fun hl => hne (List.length_eq_zero.1 hl)
  have hlen : (reqs.length : ℚ) ≠ 0 := Nat.cast_ne_zero.2 h0
  have hav : ∀ design : String, (simulate design reqs).successful = reqs.length →
      (simulate design reqs).availability = 100 := by
    intro design hs
    rw [simulate_availability_eq, hs, div_self hlen, one_mul]
  refine ⟨?_, ?_, ?_⟩
  · have hs : (simulate "unsafe" reqs).successful = reqs.length := by
      simp [simulate, simLoop_unsafe_clean _ _ _ _ _ hall]
    have hf : (simulate "unsafe" reqs).failed = 0 := by
      simp [simulate, simLoop_unsafe_clean _ _ _ _ _ hall]
    exact ⟨hs, hf, hav _ hs⟩
  · have hs : (simulate "safe" reqs).successful = reqs.length := by
      simp [simulate, simLoop_safe_eq]
      exact fun r hr => Option.ne_none_iff_isSome.1 (hall r hr)
    have hf : (simulate "safe" reqs).failed = 0 := by
      simp [simulate, simLoop_safe_eq]
      exact fun r hr => by simpa [Option.isNone_iff_eq_none] using hall r hr
    exact ⟨hs, hf, hav _ hs⟩
  · intro hfb
    have hs : (simulate "resilient" reqs).successful = reqs.length := by
      simp [simulate, simLoop_resilient_eq]
      exact fun r hr => hfb r hr
    have hf : (simulate "resilient" reqs).failed = 0 := by
      simp [simulate, simLoop_resilient_eq]
      exact fun r hr => hfb r hr
    exact ⟨hs, hf, hav _ hs⟩

theorem C9_witness :
    (([some "req1"] : List (Option String)) ≠ [] ∧
     (∀ r ∈ ([some "req1"] : List (Option String)), r ≠ none) ∧
     (∀ r ∈ ([some "req1"] : List (Option String)),
       resilientFails (Service.new (1 / 100)) r = false)) ∧
    ((simulate "unsafe" [some "req1"]).successful = 1 ∧
     (simulate "unsafe" [some "req1"]).failed = 0 ∧
     (simulate "unsafe" [some "req1"]).availability = 100) ∧
    ((simulate "safe" [some "req1"]).successful = 1 ∧
     (simulate "safe" [some "req1"]).failed = 0 ∧
     (simulate "safe" [some "req1"]).availability = 100) ∧
    ((simulate "resilient" [some "req1"]).successful = 1 ∧
     (simulate "resilient" [some "req1"]).failed = 0 ∧
     (simulate "resilient" [some "req1"]).availability = 100) := by
  have h := C9_all_present_full_success [some "req1"] (by decide) (by decide)
  exact ⟨⟨by decide, by decide, by decide⟩, h.1, h.2.1, h.2.2 (by decide)⟩

/-- C10: for any policy name other than the three known ones, the
catch-all match arm dispatches nothing: the run completes with zero
counters, no dispatched request, and a reported availability of 0. -/
theorem C10_unknown_policy_is_noop (design : String)
    (h1 : design ≠ "unsafe") (h2 : design ≠ "safe") (h3 : design ≠ "resilient") :
    (simulate_production_load design).successful = 0 ∧
    (simulate_production_load design).failed = 0 ∧
    (simulate_production_load design).dispatched = [] ∧
    (simulate_production_load design).availability = 0 := by
  refine ⟨?_, ?_, ?_, ?_⟩ <;>
    simp [simulate_production_load, simulate, simLoop_other_eq _ _ _ h1 h2 h3]

theorem C10_witness :
    (("bogus" : String) ≠ "unsafe" ∧ ("bogus" : String) ≠ "safe" ∧
     ("bogus" : String) ≠ "resilient") ∧
    ((simulate_production_load "bogus").successful = 0 ∧
     (simulate_production_load "bogus").failed = 0 ∧
     (simulate_production_load "bogus").dispatched = [] ∧
     (simulate_production_load "bogus").availability = 0) :=
  ⟨⟨by decide, by decide, by decide⟩,
   C10_unknown_policy_is_noop "bogus" (by decide) (by decide) (by decide)⟩
end UnwrapPhilosophy
